import Mathlib

/-
Verification development for the shuttle-datadog-logs service bootstrap.

The repository has two entry points:
  * src/lib.rs: the library bootstrap (fn main at lines 75-175, the axum
    service builder at lines 42-63, the secret resolver get_secret at
    lines 65-73, the request handlers at lines 24-40, and the
    dynamically-resolvable entry point _create_service at lines 177-194);
  * src/main.rs: a standalone binary variant of the same service.

The embedding below models the bootstrap as a pure function from a host
environment (the outcomes of the asynchronous host interactions: secret
store construction, task terminations, database and static-folder builds)
to the list of observable events, in program order, together with the
final outcome (a returned service, a structured error, or a panic of the
bootstrap itself).
-/

namespace Shuttle

/-- The opaque secret store: a read-only mapping from string keys to
string values (shuttle_secrets::SecretStore). -/
structure SecretStore where
  get : String → Option String

/-- The payload attached to a panic.  In the source, the recovery code
calls downcast_ref::<&str>, which succeeds only when the payload is a
static string slice; a panic raised with an owned String (for example by
expect or a formatted panic message) carries a message that the downcast
does not see, and other payload types carry none at all. -/
inductive PanicPayload
  | strSlice (message : String)
  | ownedString (message : String)
  | nonString
deriving DecidableEq

/-- e.into_panic().downcast_ref::<&str>(): succeeds only on a static
string slice payload. -/
def downcast_str : PanicPayload → Option String
  | .strSlice s => some s
  | .ownedString _ => none
  | .nonString => none

/-- The message extraction at both supervised call sites (lib.rs 130-134
and 163-167): the downcast message if the payload is a static string
slice, otherwise the contextual fallback string. -/
def panicMessage (fallback : String) (p : PanicPayload) : String :=
  (downcast_str p).getD fallback

/-- How an awaited spawned task terminates: normal completion with a
value, a panic captured by the task boundary (JoinError::is_panic), or
cancellation (a non-panic JoinError). -/
inductive TaskResult (α : Type)
  | completed (value : α)
  | panicked (payload : PanicPayload)
  | cancelled
deriving DecidableEq

/-- The structured error type surfaced to the host
(shuttle_service::Error as used by this crate): BuildPanic carries the
recovered panic message, Custom carries a contextual or propagated
error message. -/
inductive ShuttleError
  | BuildPanic (message : String)
  | Custom (message : String)
deriving DecidableEq

/-- Combine a termination mode chosen by the scheduler with the value the
task body would produce when it runs to completion. -/
def toTaskResult {α : Type} (t : TaskResult Unit) (v : α) : TaskResult α :=
  match t with
  | .completed _ => .completed v
  | .panicked p => .panicked p
  | .cancelled => .cancelled

/-- The join-error conversion applied at both supervised call sites
(lib.rs 127-141 and 160-174): a completed task yields its value; a panic
becomes BuildPanic with the recovered or fallback message; any other
join failure becomes a Custom error with the contextual message. -/
def superviseJoin {α : Type} (fallback ctx : String) :
    TaskResult α → Except ShuttleError α
  | .completed v => .ok v
  | .panicked p => .error (.BuildPanic (panicMessage fallback p))
  | .cancelled => .error (.Custom ctx)

/-- The full supervised-run shape of the second call site (lib.rs
154-174): the spawned work itself returns a Result, the join-level
conversion is applied first, and the question-mark operator then
flattens so the caller receives either the value or a structured error. -/
def runSupervised {α : Type} (fallback ctx : String)
    (r : TaskResult (Except ShuttleError α)) : Except ShuttleError α :=
  match superviseJoin fallback ctx r with
  | .ok inner => inner
  | .error e => .error e

/-- The key transform inside get_secret (lib.rs 66-70): under
cfg!(debug_assertions) the key gains a _DEV suffix, otherwise it is
unchanged. -/
def final_key (debug : Bool) (key : String) : String :=
  if debug then key ++ "_DEV" else key

/-- get_secret (lib.rs 65-73): look the transformed key up in the store;
no fallback between the qualified and unqualified forms. -/
def get_secret (debug : Bool) (secret_store : SecretStore) (key : String) :
    Option String :=
  secret_store.get (final_key debug key)

/-- The fixed version tag (lib.rs 16 and main.rs 7). -/
def VERSION : String := "version:0.1.0"

/-- Tag composition (lib.rs 89-91 and main.rs 24-27): append the version
tag to a resolver-provided tag string, or use the version tag alone. -/
def build_tags (t : Option String) : String :=
  (t.map (fun tags => tags ++ "," ++ VERSION)).getD VERSION

/-- A layer of the tracing-subscriber composition.  filter is the
EnvFilter severity gate; fmtSink is the local format layer of main.rs
51-57 (ANSI flag, timestamp format, JSON output, flattened event
fields, target, span list); dd is the Datadog shipping layer (service
name, API key, region, tag string); hostLogger is the host-supplied
shuttle logger. -/
inductive Layer
  | filter (directives : String)
  | fmtSink (ansi : Bool) (timer : String) (json flatten target spanList : Bool)
  | dd (service apiKey region tags : String)
  | hostLogger
deriving DecidableEq

/-- The local format layer built in main.rs 51-57. -/
def mainrs_fmt_layer : Layer :=
  .fmtSink true "rfc3339_utc" true true true true

/-- The subscriber composition installed by the standalone binary
(main.rs 60-64): filter, then the local format layer, then the Datadog
layer; no host-supplied logger exists in that entry point. -/
def mainrs_pipeline (level apiKey tags : String) : List Layer :=
  [.filter level, mainrs_fmt_layer, .dd "shuttle-datadog-logs" apiKey "US1" tags]

/-- Observable events of a bootstrap run, in program order. -/
inductive Event
  | buildSecretStore
  | lookup (key : String)
  | createDdLayer (service apiKey region tags : String)
  | createFilter (level : String)
  | installPipeline (layers : List Layer)
  | buildDbPool
  | buildStaticFolder
  | execDbInit
  | buildRouter
deriving DecidableEq

/-- The bootstrap outcome: a service returned to the host, a structured
error returned to the host, or a panic of the bootstrap function itself
(the two expect calls at lib.rs 96-98 and 115-116). -/
inductive MainOutcome
  | ok
  | err (e : ShuttleError)
  | panic (message : String)
deriving DecidableEq

/-- The host environment of one bootstrap run: the build configuration,
the outcome of every asynchronous host interaction, and which log-level
strings the EnvFilter grammar accepts. -/
structure Env where
  debug : Bool
  secretsBuild : Except ShuttleError SecretStore
  envFilterParses : String → Bool
  installTask : TaskResult Unit
  dbBuild : Except ShuttleError Unit
  staticBuild : Except ShuttleError Unit
  axumTask : TaskResult Unit
  dbInitExec : Except String Unit

/-- The axum service builder (lib.rs 42-63): execute the db.sql
initialization batch (fatal on error, wrapped as a custom error), then
assemble the router and hand the wrapped service back. -/
def axum (dbInit : Except String Unit) : List Event × Except ShuttleError Unit :=
  match dbInit with
  | .error e => ([.execDbInit], .error (.Custom e))
  | .ok _ => ([.execDbInit, .buildRouter], .ok ())

/-- The logging installation step (lib.rs 119-141): the composed layers
are installed inside a spawn_blocking task whose join result goes
through the shared conversion with fallback "panicked setting logger"
and context "failed to set logger". -/
def installStage (env : Env) (layers : List Layer) :
    List Event × Except ShuttleError Unit :=
  match superviseJoin "panicked setting logger" "failed to set logger"
      (toTaskResult env.installTask ()) with
  | .ok _ => ([.installPipeline layers], .ok ())
  | .error e => ([], .error e)

/-- The final supervised stage (lib.rs 154-174): the axum builder runs
inside a spawned task whose join result goes through the shared
conversion with fallback "panicked calling main" and context "failed to
call main"; the inner result is then flattened. -/
def serveStage (env : Env) : List Event × MainOutcome :=
  let body := axum env.dbInitExec
  let tr := match env.axumTask with | .completed _ => body.1 | _ => []
  (tr,
    match runSupervised "panicked calling main" "failed to call main"
        (toTaskResult env.axumTask body.2) with
    | .ok _ => .ok
    | .error e => .err e)

/-- Resource provisioning after logging install (lib.rs 144-151) followed
by the supervised serve stage: database pool, then static folder, each
fail-fast. -/
def provisionAndServe (env : Env) : List Event × MainOutcome :=
  match env.dbBuild with
  | .error e => ([.buildDbPool], .err e)
  | .ok _ =>
    match env.staticBuild with
    | .error e => ([.buildDbPool, .buildStaticFolder], .err e)
    | .ok _ =>
      let s := serveStage env
      ([.buildDbPool, .buildStaticFolder] ++ s.1, s.2)

/-- The bootstrap sequence after the filter parsed (lib.rs 119-175):
compose filter, Datadog layer and host logger, install them under
supervision, then provision and serve. -/
def afterFilter (env : Env) (key tags log_level : String) :
    List Event × MainOutcome :=
  let layers := [Layer.filter log_level,
                 Layer.dd "shuttle-datadog-logs" key "US1" tags,
                 Layer.hostLogger]
  let i := installStage env layers
  match i.2 with
  | .error e => (i.1, .err e)
  | .ok _ =>
    let p := provisionAndServe env
    (i.1 ++ p.1, p.2)

/-- The bootstrap sequence after the API key was found (lib.rs 89-175):
build the tag string and the log level from the resolver, construct the
Datadog layer, then construct the severity filter — whose expect panics
with "failed to set log level" when the level does not parse. -/
def afterKey (env : Env) (s : SecretStore) (key : String) :
    List Event × MainOutcome :=
  let tags := build_tags (get_secret env.debug s "DD_TAGS")
  let log_level := (get_secret env.debug s "LOG_LEVEL").getD "INFO"
  let head := [Event.createDdLayer "shuttle-datadog-logs" key "US1" tags,
               Event.createFilter log_level]
  if env.envFilterParses log_level then
    let r := afterFilter env key tags log_level
    (head ++ r.1, r.2)
  else
    (head, .panic "failed to set log level")

/-- The bootstrap entry sequence (lib.rs 75-175): build the secret store,
resolve DD_TAGS and LOG_LEVEL through get_secret, but look DD_API_KEY up
directly under its unqualified key (lib.rs 96-98) — its absence panics
the bootstrap with "DD_API_KEY not found" before anything else runs. -/
def main (env : Env) : List Event × MainOutcome :=
  match env.secretsBuild with
  | .error e => ([.buildSecretStore], .err e)
  | .ok s =>
    let pre := [Event.buildSecretStore,
                Event.lookup (final_key env.debug "DD_TAGS"),
                Event.lookup (final_key env.debug "LOG_LEVEL"),
                Event.lookup "DD_API_KEY"]
    match s.get "DD_API_KEY" with
    | none => (pre, .panic "DD_API_KEY not found")
    | some key =>
      let r := afterKey env s key
      (pre ++ r.1, r.2)

/-- The body of the spawned bind task inside _create_service (lib.rs
183-188): bind the service, wrap a normal failure with the context
"failed to bind service". -/
def bind_body (bindRes : Except String Unit) : Except ShuttleError Unit :=
  match bindRes with
  | .ok _ => .ok ()
  | .error e => .error (.Custom ("failed to bind service: " ++ e))

/-- The bind function handed to the Bootstrapper (lib.rs 182-189): it
spawns the bind body and returns the join handle as is — no join-error
conversion is applied at this site. -/
def bind_spawn (t : TaskResult Unit) (bindRes : Except String Unit) :
    TaskResult (Except ShuttleError Unit) :=
  toTaskResult t (bind_body bindRes)

/-- The message handler (lib.rs 25-34): the fetched row on success, a 500
response whose body is the raw database error text on failure. -/
def message (row : Except String String) : Except (Nat × String) String :=
  match row with
  | .error e => .error (500, e)
  | .ok msg => .ok msg

/-- The static-file error handler (lib.rs 37-40): logs the raw error and
answers every error with a 500 response carrying the fixed message. -/
def handle_error (error : String) : String × (Nat × String) :=
  ("Error serving static file: " ++ error,
   (500, "Something went wrong..."))

/-- Is this event the pipeline installation? -/
def isInstallEv : Event → Bool
  | .installPipeline _ => true
  | _ => false

/-- Is this event one of the steps the spec orders after logging install:
database-pool build, static-folder build, db initialization, router
assembly? -/
def isLateEv : Event → Bool
  | .buildDbPool => true
  | .buildStaticFolder => true
  | .execDbInit => true
  | .buildRouter => true
  | _ => false

/-- Is this event the construction of the Datadog (remote) layer? -/
def isDdCreateEv : Event → Bool
  | .createDdLayer _ _ _ _ => true
  | _ => false

/-- Is this event the database-pool build? -/
def isDbBuildEv : Event → Bool
  | .buildDbPool => true
  | _ => false

/-- Is this layer the local format sink? -/
def isFmtLayer : Layer → Bool
  | .fmtSink _ _ _ _ _ _ => true
  | _ => false

/-- Is this layer the host-supplied logger? -/
def isHostLayer : Layer → Bool
  | .hostLogger => true
  | _ => false

/-- Scans a trace in order: true when no post-install step occurs before
the first pipeline installation (vacuously true when neither occurs). -/
def noLateBeforeInstall : List Event → Bool
  | [] => true
  | e :: tr =>
    if isInstallEv e then true
    else if isLateEv e then false
    else noLateBeforeInstall tr

/-- Scans a trace in order: true when the secret-store build occurs
strictly before a pipeline installation. -/
def storeBuildBeforeInstall : List Event → Bool
  | [] => false
  | e :: tr =>
    match e with
    | .buildSecretStore => tr.any isInstallEv
    | .installPipeline _ => false
    | _ => storeBuildBeforeInstall tr

/-- A store holding only the development-qualified API key. -/
def store_dev_only : SecretStore :=
  ⟨fun k => if k = "DD_API_KEY_DEV" then some "dd-key" else none⟩

/-- A development-configuration run against store_dev_only in which every
host interaction would succeed. -/
def env_dev_only : Env :=
  ⟨true, .ok store_dev_only, fun s => s == "INFO",
   .completed (), .ok (), .ok (), .completed (), .ok ()⟩

/-- A store holding only the unqualified API key. -/
def store_plain_key : SecretStore :=
  ⟨fun k => if k = "DD_API_KEY" then some "dd-key" else none⟩

/-- A development-configuration run against store_plain_key in which
every host interaction succeeds. -/
def env_plain_dev : Env :=
  ⟨true, .ok store_plain_key, fun s => s == "INFO",
   .completed (), .ok (), .ok (), .completed (), .ok ()⟩

/-- A production-configuration run against store_plain_key in which every
host interaction succeeds. -/
def env_prod_ok : Env :=
  ⟨false, .ok store_plain_key, fun s => s == "INFO",
   .completed (), .ok (), .ok (), .completed (), .ok ()⟩

/-- A store holding the unqualified API key and an unparseable log
level. -/
def store_bad_level : SecretStore :=
  ⟨fun k =>
    if k = "DD_API_KEY" then some "dd-key"
    else if k = "LOG_LEVEL" then some "verbose!!"
    else none⟩

/-- A production-configuration run against store_bad_level: the resolved
log level does not parse. -/
def env_bad_level : Env :=
  ⟨false, .ok store_bad_level, fun s => s == "INFO",
   .completed (), .ok (), .ok (), .completed (), .ok ()⟩

/-- Did the spawned task complete (as opposed to reaching the caller as a
raw panicked or cancelled join outcome)? -/
def isCompletedTask {α : Type} : TaskResult α → Bool
  | .completed _ => true
  | _ => false

/-- C1 (counterexample): a supervised task that panics with an owned
String payload carrying the message "boom" does not yield TaskPanicked
with the attached message — the runner returns the fixed contextual
fallback instead, so the claim that the attached diagnostic message is
always carried is false. -/
theorem c1_runner_counterexample :
    runSupervised "panicked calling main" "failed to call main"
        (TaskResult.panicked (PanicPayload.ownedString "boom")
          : TaskResult (Except ShuttleError Unit))
      = Except.error (ShuttleError.BuildPanic "panicked calling main") ∧
    ShuttleError.BuildPanic "panicked calling main"
      ≠ ShuttleError.BuildPanic "boom" :=
  ⟨rfl, by decide⟩

/-- C1 (amended): the supervised runner returns Ok(v) for work completing
with Ok(v), propagates a normal Err(e) as the structured error e, maps a
cancellation to a contextual structured error, and maps a panic to
TaskPanicked (BuildPanic) carrying the attached diagnostic message when
the payload is a static string slice and the fixed contextual fallback
string otherwise (including when the message is an owned String); the
caller always receives a structured value, never a raw fault. -/
theorem c1_runner_amended :
    ∀ (α : Type) (fallback ctx : String) (v : α) (e : ShuttleError)
      (p : PanicPayload) (s : String),
      runSupervised fallback ctx (.completed (.ok v)) = .ok v ∧
      @runSupervised α fallback ctx (.completed (.error e)) = .error e ∧
      @runSupervised α fallback ctx (.panicked p)
        = .error (.BuildPanic (panicMessage fallback p)) ∧
      @runSupervised α fallback ctx .cancelled = .error (.Custom ctx) ∧
      panicMessage fallback (.strSlice s) = s ∧
      panicMessage fallback (.ownedString s) = fallback ∧
      panicMessage fallback .nonString = fallback := by
  intro α fallback ctx v e p s
  exact ⟨rfl, rfl, rfl, rfl, rfl, rfl, rfl⟩

/-- C10 (confirmed): at both supervised call sites the panic message is
recovered only from a static string slice payload; an owned String (as
produced by expect or a formatted panic message) or any non-string
payload yields the fixed contextual fallback text of the site. -/
theorem c10_downcast_only_static_str :
    ∀ (s : String),
      superviseJoin "panicked setting logger" "failed to set logger"
          (TaskResult.panicked (PanicPayload.ownedString s) : TaskResult Unit)
        = .error (.BuildPanic "panicked setting logger") ∧
      runSupervised "panicked calling main" "failed to call main"
          (TaskResult.panicked (PanicPayload.ownedString s)
            : TaskResult (Except ShuttleError Unit))
        = .error (.BuildPanic "panicked calling main") ∧
      superviseJoin "panicked setting logger" "failed to set logger"
          (TaskResult.panicked (PanicPayload.strSlice s) : TaskResult Unit)
        = .error (.BuildPanic s) ∧
      runSupervised "panicked calling main" "failed to call main"
          (TaskResult.panicked (PanicPayload.strSlice s)
            : TaskResult (Except ShuttleError Unit))
        = .error (.BuildPanic s) ∧
      superviseJoin "panicked setting logger" "failed to set logger"
          (TaskResult.panicked PanicPayload.nonString : TaskResult Unit)
        = .error (.BuildPanic "panicked setting logger") := by
  intro s
  exact ⟨rfl, rfl, rfl, rfl, rfl⟩

/-- C7 (counterexample): a panic inside the spawned bind task reaches the
host as the raw panicked join outcome — the bind site applies no
conversion to a structured error value, unlike the two supervised
bootstrap sites. -/
theorem c7_bind_no_conversion_counterexample :
    bind_spawn (.panicked (.strSlice "boom")) (.ok ())
      = TaskResult.panicked (PanicPayload.strSlice "boom") ∧
    isCompletedTask (bind_spawn (.panicked (.strSlice "boom")) (.ok ())) = false :=
  ⟨rfl, rfl⟩

/-- C7 (amended): the bind call is dispatched as a spawned supervised
task, so a bind-time panic is captured in the join handle rather than
unwinding into the host, and a normal bind failure reaches the host as a
structured Custom error wrapped with the bind context; but the
panic-to-BuildPanic conversion used at the two supervised bootstrap
sites is not applied here — the host receives the raw join outcome. -/
theorem c7_bind_amended :
    ∀ (p : PanicPayload) (r : Except String Unit) (e : String),
      bind_spawn (.completed ()) (.ok ()) = .completed (.ok ()) ∧
      bind_spawn (.completed ()) (.error e)
        = .completed (.error (.Custom ("failed to bind service: " ++ e))) ∧
      bind_spawn (.panicked p) r = .panicked p ∧
      bind_spawn .cancelled r = .cancelled := by
  intro p r e
  exact ⟨rfl, rfl, rfl, rfl⟩

/-- C8 (confirmed): the built tag string appends the fixed version tag to
a resolver-provided tag string, and is the version tag alone when the
resolver provides none. -/
theorem c8_tag_composition :
    (∀ t, build_tags (some t) = t ++ ",version:0.1.0") ∧
    build_tags none = "version:0.1.0" := by
  refine ⟨fun t => ?_, rfl⟩
  show t ++ "," ++ VERSION = t ++ ",version:0.1.0"
  apply String.ext
  simp [VERSION, String.data_append]

/-- C9 (confirmed): the message handler returns the stored string on
success and a 500 response whose body is the raw error text on failure;
the static-file error handler answers every error with a 500 response
whose body is a fixed safe message independent of the error, while the
raw error detail appears only in the logged line. -/
theorem c9_request_error_mapping :
    ∀ (s e e1 e2 : String),
      message (.ok s) = .ok s ∧
      message (.error e) = .error (500, e) ∧
      (handle_error e).2 = (500, "Something went wrong...") ∧
      (handle_error e1).2 = (handle_error e2).2 ∧
      (handle_error e).1 = "Error serving static file: " ++ e := by
  intro s e e1 e2
  exact ⟨rfl, rfl, rfl, rfl, rfl⟩

/-- C2 (counterexample): a development-configuration run against a store
holding only the qualified key DD_API_KEY_DEV.  The resolver would find
the qualified key, but the bootstrap looks DD_API_KEY up directly under
its unqualified name and panics with "DD_API_KEY not found" — so the
claim that every one of the three keys is probed only in qualified form
in development configuration is false for DD_API_KEY. -/
theorem c2_api_key_bypass_counterexample :
    get_secret true store_dev_only "DD_API_KEY" = some "dd-key" ∧
    env_dev_only.debug = true ∧
    (main env_dev_only).2 = .panic "DD_API_KEY not found" := by
  refine ⟨by decide, rfl, by decide⟩

/-- C2 (amended): the resolver probes exactly the qualified key in a
development configuration and the unqualified key in production, with no
fallback; DD_TAGS and LOG_LEVEL go through the resolver, but DD_API_KEY
is looked up directly under its unqualified name in every configuration,
and its absence under that unqualified name aborts the bootstrap. -/
theorem c2_resolver_amended (d : Bool) (s : SecretStore) (k : String)
    (env : Env) (s2 : SecretStore) (hs : env.secretsBuild = .ok s2) :
    get_secret d s k = s.get (if d then k ++ "_DEV" else k) ∧
    Event.lookup "DD_API_KEY" ∈ (main env).1 ∧
    (s2.get "DD_API_KEY" = none →
      (main env).2 = .panic "DD_API_KEY not found") := by
  refine ⟨rfl, ?_, ?_⟩
  · cases hk : s2.get "DD_API_KEY" <;> simp [main, hs, hk]
  · intro hk
    simp [main, hs, hk]

/-- C2 (witness for the amended theorem). -/
theorem c2_resolver_amended_witness :
    get_secret true store_dev_only "DD_TAGS"
      = store_dev_only.get (if true then "DD_TAGS" ++ "_DEV" else "DD_TAGS") ∧
    Event.lookup "DD_API_KEY" ∈ (main env_dev_only).1 ∧
    (store_dev_only.get "DD_API_KEY" = none →
      (main env_dev_only).2 = .panic "DD_API_KEY not found") :=
  c2_resolver_amended true store_dev_only "DD_TAGS" env_dev_only store_dev_only rfl

/-- C3 (counterexample): a run whose resolved LOG_LEVEL is the
unparseable string "verbose!!" does abort fatally, but the Datadog
(remote) layer is constructed before the level is parsed, so the claim
that no remote log sink is ever constructed in such a run is false. -/
theorem c3_remote_sink_constructed_counterexample :
    (get_secret env_bad_level.debug store_bad_level "LOG_LEVEL").getD "INFO"
      = "verbose!!" ∧
    env_bad_level.envFilterParses "verbose!!" = false ∧
    (main env_bad_level).2 = .panic "failed to set log level" ∧
    (main env_bad_level).1.any isDdCreateEv = true := by
  refine ⟨by decide, by decide, by decide, by decide⟩

/-- C3 (amended): whenever the resolved LOG_LEVEL does not parse, the
bootstrap aborts fatally at filter construction (the level is not
silently defaulted), the pipeline is never installed and no database
provisioning follows; the remote sink object, however, has already been
constructed before the level parse. -/
theorem c3_level_parse_amended (env : Env) (s : SecretStore) (k : String)
    (hs : env.secretsBuild = .ok s)
    (hk : s.get "DD_API_KEY" = some k)
    (hp : env.envFilterParses
      ((get_secret env.debug s "LOG_LEVEL").getD "INFO") = false) :
    (main env).2 = .panic "failed to set log level" ∧
    (main env).1.any isInstallEv = false ∧
    (main env).1.any isDbBuildEv = false ∧
    (main env).1.any isDdCreateEv = true := by
  simp [main, hs, hk, afterKey, hp, isInstallEv, isDbBuildEv, isDdCreateEv]

/-- C3 (witness for the amended theorem). -/
theorem c3_level_parse_amended_witness :
    (main env_bad_level).2 = .panic "failed to set log level" ∧
    (main env_bad_level).1.any isInstallEv = false ∧
    (main env_bad_level).1.any isDbBuildEv = false ∧
    (main env_bad_level).1.any isDdCreateEv = true :=
  c3_level_parse_amended env_bad_level store_bad_level "dd-key" rfl
    (by decide) (by decide)

/-- C4 (counterexample): a successful production run in which the
secret-store build — one of the provisioned resources — executes
strictly before the logging pipeline is installed, so the claim that
installation precedes all resource provisioning is false. -/
theorem c4_store_before_install_counterexample :
    storeBuildBeforeInstall (main env_prod_ok).1 = true ∧
    (main env_prod_ok).2 = .ok := by
  refine ⟨by decide, by decide⟩

/-- C4 (amended): in every bootstrap run the logging pipeline is
installed strictly before the database pool build, the static-folder
build, the database initialization, and the router assembly; the secret
store, however, is provisioned first, before logging install, because
its values configure the pipeline. -/
theorem c4_install_before_provisioning_amended (env : Env) :
    noLateBeforeInstall (main env).1 = true := by
  obtain ⟨dbg, sb, pf, it, db, st, ax, dbi⟩ := env
  cases sb with
  | error e => simp [main, noLateBeforeInstall, isInstallEv, isLateEv]
  | ok s =>
    cases hk : s.get "DD_API_KEY" with
    | none =>
      simp [main, hk, noLateBeforeInstall, isInstallEv, isLateEv]
    | some key =>
      cases hp : pf ((get_secret dbg s "LOG_LEVEL").getD "INFO") with
      | false =>
        simp [main, hk, afterKey, hp, noLateBeforeInstall, isInstallEv,
          isLateEv]
      | true =>
        cases it with
        | completed u =>
          simp [main, hk, afterKey, hp, afterFilter, installStage,
            superviseJoin, toTaskResult, noLateBeforeInstall, isInstallEv,
            isLateEv]
        | panicked p =>
          simp [main, hk, afterKey, hp, afterFilter, installStage,
            superviseJoin, toTaskResult, noLateBeforeInstall, isInstallEv,
            isLateEv]
        | cancelled =>
          simp [main, hk, afterKey, hp, afterFilter, installStage,
            superviseJoin, toTaskResult, noLateBeforeInstall, isInstallEv,
            isLateEv]

/-- C5 (counterexample): a development run in which the mode-qualified
key DD_API_KEY_DEV is absent but the unqualified DD_API_KEY is present:
the bootstrap does not abort — it succeeds and a database build is
observed — so the claim, read with mode-qualified lookup, is false. -/
theorem c5_qualified_absence_counterexample :
    env_plain_dev.debug = true ∧
    store_plain_key.get "DD_API_KEY_DEV" = none ∧
    Event.buildDbPool ∈ (main env_plain_dev).1 ∧
    (main env_plain_dev).2 = .ok := by
  refine ⟨rfl, by decide, by decide, by decide⟩

/-- C5 (amended): whenever DD_API_KEY — looked up under the unqualified
key in every configuration — is absent from the provisioned store, the
bootstrap aborts immediately and fatally, before any database
provisioning: no database build or database call event is ever observed
and the absence is not retried. -/
theorem c5_missing_key_amended (env : Env) (s : SecretStore)
    (hs : env.secretsBuild = .ok s) (hk : s.get "DD_API_KEY" = none) :
    (main env).2 = .panic "DD_API_KEY not found" ∧
    Event.buildDbPool ∉ (main env).1 ∧
    Event.execDbInit ∉ (main env).1 := by
  simp [main, hs, hk]

/-- C5 (witness for the amended theorem). -/
theorem c5_missing_key_amended_witness :
    (main env_dev_only).2 = .panic "DD_API_KEY not found" ∧
    Event.buildDbPool ∉ (main env_dev_only).1 ∧
    Event.execDbInit ∉ (main env_dev_only).1 :=
  c5_missing_key_amended env_dev_only store_dev_only rfl (by decide)

/-- No installation event arises inside the provisioning-and-serve part
of the bootstrap: installation happens only in the dedicated stage. -/
theorem installPipeline_notin_provision (env : Env) (ls : List Layer) :
    Event.installPipeline ls ∉ (provisionAndServe env).1 := by
  obtain ⟨dbg, sb, pf, it, db, st, ax, dbi⟩ := env
  cases db <;> cases st <;> cases ax <;> cases dbi <;>
    simp [provisionAndServe, serveStage, axum]

/-- C6 (counterexample): a successful library-bootstrap run installs
exactly the severity filter, the Datadog remote layer and the
host-supplied logger — no local format sink is among the installed
layers — while the standalone binary composition contains the local
format sink but no host-supplied sink; so the claimed four-layer
composition matches neither installed pipeline. -/
theorem c6_pipeline_shape_counterexample :
    Event.installPipeline
        [Layer.filter "INFO",
         Layer.dd "shuttle-datadog-logs" "dd-key" "US1" "version:0.1.0",
         Layer.hostLogger] ∈ (main env_prod_ok).1 ∧
    ([Layer.filter "INFO",
      Layer.dd "shuttle-datadog-logs" "dd-key" "US1" "version:0.1.0",
      Layer.hostLogger].any isFmtLayer = false) ∧
    (mainrs_pipeline "INFO" "dd-key" "version:0.1.0").any isHostLayer = false := by
  refine ⟨by decide, by decide, by decide⟩

/-- C6 (amended): every pipeline installed by the library bootstrap is an
ordered composition of exactly the severity filter (first, gating the
sinks), the remote-shipping Datadog sink, and the host-supplied sink —
with no local format sink; the standalone binary instead composes the
severity filter, the local format sink (ANSI color, wall-clock textual
timestamps, one flattened record per event) and the remote sink, with no
host-supplied sink. -/
theorem c6_pipeline_amended (env : Env) (ls : List Layer)
    (h : Event.installPipeline ls ∈ (main env).1) :
    (∃ lvl key tags,
      ls = [Layer.filter lvl,
            Layer.dd "shuttle-datadog-logs" key "US1" tags,
            Layer.hostLogger]) ∧
    (∀ lvl key tags, mainrs_pipeline lvl key tags =
      [Layer.filter lvl, Layer.fmtSink true "rfc3339_utc" true true true true,
       Layer.dd "shuttle-datadog-logs" key "US1" tags]) := by
  refine ⟨?_, fun lvl key tags => rfl⟩
  obtain ⟨dbg, sb, pf, it, db, st, ax, dbi⟩ := env
  cases sb with
  | error e => simp [main] at h
  | ok s =>
    cases hk : s.get "DD_API_KEY" with
    | none => simp [main, hk] at h
    | some key =>
      cases hp : pf ((get_secret dbg s "LOG_LEVEL").getD "INFO") with
      | false => simp [main, hk, afterKey, hp] at h
      | true =>
        cases it with
        | completed u =>
          simp [main, hk, afterKey, hp, afterFilter, installStage,
            superviseJoin, toTaskResult] at h
          rcases h with h | h
          · exact ⟨(get_secret dbg s "LOG_LEVEL").getD "INFO",
              key, build_tags (get_secret dbg s "DD_TAGS"), by rw [h]⟩
          · exact absurd h (installPipeline_notin_provision
              ⟨dbg, .ok s, pf, .completed u, db, st, ax, dbi⟩ ls)
        | panicked p =>
          simp [main, hk, afterKey, hp, afterFilter, installStage,
            superviseJoin, toTaskResult] at h
        | cancelled =>
          simp [main, hk, afterKey, hp, afterFilter, installStage,
            superviseJoin, toTaskResult] at h

/-- C6 (witness for the amended theorem). -/
theorem c6_pipeline_amended_witness :
    (∃ lvl key tags,
      [Layer.filter "INFO",
       Layer.dd "shuttle-datadog-logs" "dd-key" "US1" "version:0.1.0",
       Layer.hostLogger]
        = [Layer.filter lvl,
           Layer.dd "shuttle-datadog-logs" key "US1" tags,
           Layer.hostLogger]) ∧
    (∀ lvl key tags, mainrs_pipeline lvl key tags =
      [Layer.filter lvl, Layer.fmtSink true "rfc3339_utc" true true true true,
       Layer.dd "shuttle-datadog-logs" key "US1" tags]) :=
  c6_pipeline_amended env_prod_ok
    [Layer.filter "INFO",
     Layer.dd "shuttle-datadog-logs" "dd-key" "US1" "version:0.1.0",
     Layer.hostLogger]
    (by decide)

end Shuttle
